import Mathlib

/-!
Verification development for the Celery notification adapter
(vintasend-celery): a shallow embedding of the serialization /
deserialization codec in
src/vintasend_celery/services/notification_adapters/celery_adapter_factory.py
together with the dispatch entry point, and proofs of the specified
properties of that code.

Python exceptions are embedded as an error type returned through
Except; Python dictionaries are association lists of string keys and
embedded Python values; the nondeterministic inputs of the code
(uuid.uuid4() and datetime.datetime.now()) are passed as explicit
parameters.
-/

/-- Embedded Python exception values, named after the exception classes the
adapter code can raise.  The specification refers to them by the taxonomy
names UnsupportedAttachmentType (a ValueError from encode), MissingField
(a KeyError), InvalidTimestamp (a ValueError from
datetime.fromisoformat) and AttachmentUnavailable (the
NotImplementedError raised by PlaceholderAttachmentFile). -/
inductive PyError where
  | keyError (key : String)
  | valueError (msg : String)
  | typeError (msg : String)
  | notImplementedError (msg : String)
  | attributeError (msg : String)
deriving DecidableEq, Repr

/-- Explicit-match bind on Except, mirroring how a Python exception
propagates out of the enclosing expression. -/
def ebind (x : Except PyError α) (f : α → Except PyError β) : Except PyError β :=
  match x with
  | .error e => .error e
  | .ok a => f a

/-- Embedding of a naive datetime.datetime value (the adapter only ever
builds and transports naive datetimes: datetime.now() and values parsed
back from their isoformat output). -/
structure Datetime where
  year : Nat
  month : Nat
  day : Nat
  hour : Nat
  minute : Nat
  second : Nat
  microsecond : Nat
deriving DecidableEq, Repr

/-- Character for a single decimal digit, as Python produces in
zero-padded numeric fields. -/
def digitChar (n : Nat) : Char := Char.ofNat (48 + n)

/-- Left-zero-padded fixed-width decimal rendering, as used by
datetime.isoformat for each numeric field. -/
def padNum : Nat → Nat → List Char
  | 0, _ => []
  | w + 1, n => padNum w (n / 10) ++ [digitChar (n % 10)]

/-- Days in a month, with the Gregorian leap rule, as validated by the
datetime constructor. -/
def isLeap (y : Nat) : Bool := (y % 4 == 0 && y % 100 != 0) || y % 400 == 0

/-- Number of days of a month of a year, as validated by the datetime
constructor. -/
def daysInMonth (y m : Nat) : Nat :=
  if m = 2 then (if isLeap y then 29 else 28)
  else if m = 4 ∨ m = 6 ∨ m = 9 ∨ m = 11 then 30
  else 31

/-- Field ranges accepted by the datetime.datetime constructor. -/
def validDT (d : Datetime) : Prop :=
  1 ≤ d.year ∧ d.year ≤ 9999 ∧ 1 ≤ d.month ∧ d.month ≤ 12 ∧
  1 ≤ d.day ∧ d.day ≤ daysInMonth d.year d.month ∧
  d.hour ≤ 23 ∧ d.minute ≤ 59 ∧ d.second ≤ 59 ∧ d.microsecond ≤ 999999

instance (d : Datetime) : Decidable (validDT d) := by
  unfold validDT; infer_instance

/-- Characters of datetime.isoformat(): date, the T separator, time,
and the microseconds suffix exactly when the microsecond field is
nonzero. -/
def isoformatChars (d : Datetime) : List Char :=
  padNum 4 d.year ++ '-' :: padNum 2 d.month ++ '-' :: padNum 2 d.day ++
  'T' :: padNum 2 d.hour ++ ':' :: padNum 2 d.minute ++ ':' :: padNum 2 d.second ++
  (if d.microsecond = 0 then [] else '.' :: padNum 6 d.microsecond)

/-- Embedding of datetime.isoformat() on naive datetimes. -/
def isoformat (d : Datetime) : String := String.mk (isoformatChars d)

/-- Two-digit decimal field reader used by the fromisoformat model. -/
def parse2 (a b : Char) : Option Nat :=
  if a.isDigit && b.isDigit then some (10 * (a.toNat - 48) + (b.toNat - 48)) else none

/-- Range-checked datetime construction, as the datetime.datetime
constructor performs after fromisoformat has read the numeric fields. -/
def mkDT (y mo da h mi s us : Nat) : Option Datetime :=
  if 1 ≤ y ∧ y ≤ 9999 ∧ 1 ≤ mo ∧ mo ≤ 12 ∧ 1 ≤ da ∧ da ≤ daysInMonth y mo ∧
     h ≤ 23 ∧ mi ≤ 59 ∧ s ≤ 59 ∧ us ≤ 999999 then
    some ⟨y, mo, da, h, mi, s, us⟩
  else none

/-- Time-of-day part of the fromisoformat model: hours and minutes,
optional seconds, optional six-digit fraction, the shapes
datetime.isoformat emits. -/
def parseTimeChars (cs : List Char) : Option (Nat × Nat × Nat × Nat) :=
  match cs with
  | [h1, h2, c1, mi1, mi2] =>
    if c1 = ':' then
      match parse2 h1 h2, parse2 mi1 mi2 with
      | some hh, some mi => some (hh, mi, 0, 0)
      | _, _ => none
    else none
  | [h1, h2, c1, mi1, mi2, c2, s1, s2] =>
    if c1 = ':' ∧ c2 = ':' then
      match parse2 h1 h2, parse2 mi1 mi2, parse2 s1 s2 with
      | some hh, some mi, some ss => some (hh, mi, ss, 0)
      | _, _, _ => none
    else none
  | [h1, h2, c1, mi1, mi2, c2, s1, s2, c3, f1, f2, f3, f4, f5, f6] =>
    if c1 = ':' ∧ c2 = ':' ∧ c3 = '.' then
      match parse2 h1 h2, parse2 mi1 mi2, parse2 s1 s2,
            parse2 f1 f2, parse2 f3 f4, parse2 f5 f6 with
      | some hh, some mi, some ss, some u1, some u2, some u3 =>
        some (hh, mi, ss, 10000 * u1 + 100 * u2 + u3)
      | _, _, _, _, _, _ => none
    else none
  | _ => none

/-- Embedding of datetime.fromisoformat on a character list: the
YYYY-MM-DD date, then optionally a single separator character and a
time of day, with the constructor range checks.  It covers the
isoformat output grammar and rejects everything outside it; the wider
input formats Python additionally tolerates are not exercised by this
code base. -/
def isoParseChars (cs : List Char) : Option Datetime :=
  match cs with
  | y1 :: y2 :: y3 :: y4 :: c1 :: mo1 :: mo2 :: c2 :: d1 :: d2 :: rest =>
    if c1 = '-' ∧ c2 = '-' then
      match parse2 y1 y2, parse2 y3 y4, parse2 mo1 mo2, parse2 d1 d2 with
      | some yh, some yl, some mo, some da =>
        match rest with
        | [] => mkDT (100 * yh + yl) mo da 0 0 0 0
        | _sep :: tcs =>
          match parseTimeChars tcs with
          | some (hh, mi, ss, us) => mkDT (100 * yh + yl) mo da hh mi ss us
          | none => none
      | _, _, _, _ => none
    else none
  | _ => none

/-- Embedding of datetime.fromisoformat on a string. -/
def isoParse (s : String) : Option Datetime := isoParseChars s.data

/-- Open-brace character, used by the uuid.UUID constructor when it strips
an optional surrounding pair of braces. -/
def braceOpen : Char := '\x7b'

/-- Close-brace character, used by the uuid.UUID constructor when it strips
an optional surrounding pair of braces. -/
def braceClose : Char := '\x7d'

/-- Test for a brace character, as str.strip with both braces uses. -/
def isBrace (c : Char) : Bool := c == braceOpen || c == braceClose

/-- Leading and trailing brace characters removed, the effect of the
strip call in the uuid.UUID constructor. -/
def stripBracesChars (cs : List Char) : List Char :=
  ((cs.dropWhile isBrace).reverse.dropWhile isBrace).reverse

/-- Left-to-right non-overlapping replacement on character lists, the
semantics of str.replace; the fuel argument (instantiated with the
input length) only makes the recursion structural. -/
def replaceCharsAux (pat rep : List Char) : Nat → List Char → List Char
  | _, [] => []
  | 0, cs => cs
  | fuel + 1, c :: cs =>
    if pat.isPrefixOf (c :: cs) then rep ++ replaceCharsAux pat rep fuel ((c :: cs).drop pat.length)
    else c :: replaceCharsAux pat rep fuel cs

/-- Embedding of str.replace for the non-empty patterns the uuid.UUID
constructor uses. -/
def pyReplace (s pat rep : String) : String :=
  String.mk (replaceCharsAux pat.data rep.data s.data.length s.data)

/-- Hexadecimal digit test, the digits accepted when the uuid.UUID
constructor converts the remaining 32 characters with base 16. -/
def isHexChar (c : Char) : Bool :=
  c.isDigit || (97 ≤ c.toNat && c.toNat ≤ 102) || (65 ≤ c.toNat && c.toNat ≤ 70)

/-- Canonical dashed 8-4-4-4-12 string representation of a UUID from its
32 lowercase hex digits, the form str() of a uuid.UUID object yields. -/
def uuidCanonical (cs : List Char) : String :=
  String.mk (cs.take 8 ++ '-' :: (cs.drop 8).take 4 ++ '-' :: (cs.drop 12).take 4 ++
    '-' :: (cs.drop 16).take 4 ++ '-' :: cs.drop 20)

/-- Embedding of the uuid.UUID(value) string constructor: drop the
urn: and uuid: markers, strip surrounding braces, drop dashes, and
require exactly 32 hexadecimal digits; the result is the canonical
lowercase dashed form.  Returns none where Python raises ValueError. -/
def uuidParse (value : String) : Option String :=
  let stripped := pyReplace (pyReplace value "urn:" "") "uuid:" ""
  let cs := (stripBracesChars stripped.data).filter (fun c => c ≠ '-')
  if cs.length = 32 && cs.all isHexChar then
    some (uuidCanonical (cs.map Char.toLower))
  else none

/-- Embedded Python values as they occur in notification fields and in
the queue-serializable wire mapping: None, booleans, integers, strings,
uuid.UUID objects, lists and string-keyed dictionaries. -/
inductive PyVal where
  | pnone
  | pbool (b : Bool)
  | pint (n : Int)
  | pstr (s : String)
  | puuid (u : String)
  | plist (xs : List PyVal)
  | pdict (entries : List (String × PyVal))
deriving Repr

/-- Embedded Python dictionary with string keys. -/
abbrev PyDict := List (String × PyVal)

/-- Python truthiness of an embedded value, as tested by the
conditional expressions of the adapter code. -/
def truthy : PyVal → Bool
  | .pnone => false
  | .pbool b => b
  | .pint n => n != 0
  | .pstr s => s != ""
  | .puuid _ => true
  | .plist xs => !xs.isEmpty
  | .pdict es => !es.isEmpty

/-- Embedding of str() on the values the adapter stringifies (stored
attachment identifiers). -/
def pyStr : PyVal → String
  | .pstr s => s
  | .puuid u => u
  | .pint n => toString n
  | .pbool b => if b then "True" else "False"
  | .pnone => "None"
  | .plist _ => "[...]"
  | .pdict _ => "\x7b...\x7d"

/-- Subscript access on a dictionary, raising KeyError for a missing
key as Python square-bracket access does. -/
def getItem (d : PyDict) (k : String) : Except PyError PyVal :=
  match d.lookup k with
  | some v => .ok v
  | none => .error (.keyError k)

/-- Embedding of dict.get(key) with its None default. -/
def dictGet (d : PyDict) (k : String) : PyVal := (d.lookup k).getD .pnone

/-- Embedding of dict.get(key, default). -/
def dictGetD (d : PyDict) (k : String) (dflt : PyVal) : PyVal := (d.lookup k).getD dflt

/-- Embedding of the Python key-membership test on a dictionary. -/
def containsKey (d : PyDict) (k : String) : Bool := (d.lookup k).isSome

/-- File handle of a stored attachment.  Modelled from the spec: the
backendFile variant is the external backend-provided handle (an
AttachmentFile whose operations succeed, out of scope §1); the
placeholder variant embeds PlaceholderAttachmentFile from the adapter
source, holding the attachment identifier it was constructed with. -/
inductive FileHandle where
  | backendFile (content : List Nat)
  | placeholder (attachment_id : PyVal)

/-- Embedding of AttachmentFile.read(); PlaceholderAttachmentFile.read
raises NotImplementedError (the failure the spec names
AttachmentUnavailable). -/
def FileHandle.read : FileHandle → Except PyError (List Nat)
  | .backendFile c => .ok c
  | .placeholder _ => .error (.notImplementedError "File must be retrieved from backend")

/-- Embedding of AttachmentFile.stream(); the placeholder raises
NotImplementedError. -/
def FileHandle.stream : FileHandle → Except PyError (List Nat)
  | .backendFile c => .ok c
  | .placeholder _ => .error (.notImplementedError "File must be retrieved from backend")

/-- Embedding of AttachmentFile.url(expires_in); the placeholder raises
NotImplementedError. -/
def FileHandle.url (h : FileHandle) (expires_in : Int := 3600) : Except PyError String :=
  match h with
  | .backendFile _ => .ok ""
  | .placeholder _ => .error (.notImplementedError "File must be retrieved from backend")

/-- Embedding of AttachmentFile.delete(); the placeholder raises
NotImplementedError. -/
def FileHandle.delete : FileHandle → Except PyError Unit
  | .backendFile _ => .ok ()
  | .placeholder _ => .error (.notImplementedError "File must be retrieved from backend")

/-- Modelled from the spec: a StoredAttachment value of the external
vintasend dataclasses module (§3, Stored variant): identifier,
metadata fields, creation timestamp and a file handle. -/
structure StoredAttachment where
  id : PyVal
  filename : PyVal
  content_type : PyVal
  size : PyVal
  checksum : PyVal
  created_at : Datetime
  description : PyVal
  is_inline : PyVal
  storage_metadata : PyVal
  file : FileHandle

/-- Raw file content of a Pending attachment.  Modelled from the spec
(§3, Pending variant): a seekable byte stream, in-memory bytes, or a
filesystem path (with its on-disk size when the path exists), and a
fallback for any other object in the file slot. -/
inductive PendingFile where
  | streamFile (content : List Nat)
  | rawBytes (content : List Nat)
  | filePath (p : String) (onDiskSize : Option Nat)
  | otherFile

/-- Modelled from the spec: a NotificationAttachment value of the
external vintasend dataclasses module (§3, Pending variant). -/
structure NotificationAttachment where
  file : PendingFile
  filename : PyVal
  content_type : PyVal
  description : PyVal
  is_inline : PyVal

/-- An object in a notification attachment list: a stored attachment,
a pending attachment, or any other object (otherType carries the text
Python interpolates for type(attachment)). -/
inductive Attachment where
  | stored (a : StoredAttachment)
  | pending (a : NotificationAttachment)
  | otherType (typeRepr : String)

/-- Best-effort size of a pending attachment file, as computed by
_serialize_attachment: seek to end and back for a stream, len() for
bytes, a filesystem stat for an existing path, else 0. -/
def pendingSize : PendingFile → Int
  | .streamFile c => c.length
  | .rawBytes c => c.length
  | .filePath _ (some sz) => sz
  | .filePath _ none => 0
  | .otherFile => 0

/-- Modelled from the spec: a regular Notification value of the
external vintasend dataclasses module (§3): identifier, owning-user
identifier, type tag, title, template references, context name and
keyword arguments, status, optional send-after timestamp, optional
previously-rendered-context snapshot, and attachments. -/
structure Notification where
  id : PyVal
  user_id : PyVal
  notification_type : PyVal
  title : PyVal
  body_template : PyVal
  context_name : PyVal
  context_kwargs : PyDict
  send_after : Option Datetime
  subject_template : PyVal
  preheader_template : PyVal
  status : PyVal
  context_used : PyVal
  attachments : List Attachment

/-- Modelled from the spec: a OneOffNotification value of the external
vintasend dataclasses module (§3): same shape as Notification but
addressed by raw contact string plus first and last name instead of a
user identifier, plus adapter-specific extra parameters; context_used
defaults to None when not passed to the constructor. -/
structure OneOffNotification where
  id : PyVal
  email_or_phone : PyVal
  first_name : PyVal
  last_name : PyVal
  notification_type : PyVal
  title : PyVal
  body_template : PyVal
  context_name : PyVal
  context_kwargs : PyDict
  send_after : Option Datetime
  subject_template : PyVal
  preheader_template : PyVal
  status : PyVal
  adapter_extra_parameters : PyVal
  context_used : PyVal
  attachments : List Attachment

/-- A notification of either variant, as accepted and produced by the
codec (the Python union Notification | OneOffNotification). -/
inductive AnyNotification where
  | regular (n : Notification)
  | oneOff (n : OneOffNotification)

/-- True exactly on the one-off variant. -/
def AnyNotification.isOneOff : AnyNotification → Bool
  | .regular _ => false
  | .oneOff _ => true

/-- Embedding of CeleryNotificationAdapter._serialize_attachment.  The
nondeterministic inputs are explicit: now is the datetime.datetime.now()
value and fresh the uuid.uuid4() value drawn during this call (both
used only in the pending branch).  A stored attachment is emitted with
its id stringified and its timestamp in ISO form; a pending attachment
gets a synthesized temp_ identifier, a best-effort size, no checksum,
the encode-time timestamp, empty storage metadata and the
needs-processing flag; anything else raises ValueError. -/
def _serialize_attachment (now : Datetime) (fresh : String) :
    Attachment → Except PyError PyDict
  | .stored a => .ok [
      ("id", .pstr (pyStr a.id)),
      ("filename", a.filename),
      ("content_type", a.content_type),
      ("size", a.size),
      ("checksum", a.checksum),
      ("created_at", .pstr (isoformat a.created_at)),
      ("description", a.description),
      ("is_inline", a.is_inline),
      ("storage_metadata", a.storage_metadata)]
  | .pending a => .ok [
      ("id", .pstr ("temp_" ++ fresh)),
      ("filename", a.filename),
      ("content_type", a.content_type),
      ("size", .pint (pendingSize a.file)),
      ("checksum", .pnone),
      ("created_at", .pstr (isoformat now)),
      ("description", a.description),
      ("is_inline", a.is_inline),
      ("storage_metadata", .pdict []),
      ("_is_notification_attachment", .pbool true)]
  | .otherType t => .error (.valueError ("Unsupported attachment type: " ++ t))

/-- List comprehension of _serialize_attachment over the attachment
list; gen i is the uuid.uuid4() value drawn by the i-th call, and the
first exception propagates. -/
def serializeAttachments (now : Datetime) (gen : Nat → String) :
    Nat → List Attachment → Except PyError (List PyVal)
  | _, [] => .ok []
  | i, a :: rest =>
    ebind (_serialize_attachment now (gen i) a) fun r =>
    ebind (serializeAttachments now gen (i + 1) rest) fun rs =>
    .ok (.pdict r :: rs)

/-- Wire value of the send_after field: isoformat string when present,
else None (a datetime object is always truthy). -/
def serializeSendAfter : Option Datetime → PyVal
  | some dt => .pstr (isoformat dt)
  | none => .pnone

/-- Embedding of CeleryNotificationAdapter.notification_to_dict.  Every
dataclass field except send_after, attachments, created_at, updated_at
is copied by identity in declaration order; then send_after is emitted
as ISO-8601 or None, the attachments as serialized records (an empty
list when there are none), the variant discriminator, and the
adapter_extra_parameters / context_used fallbacks for fields the
dataclass does not declare (for a regular notification
adapter_extra_parameters defaults to None; both dataclasses declare
context_used, so its fallback never fires). -/
def notification_to_dict (now : Datetime) (gen : Nat → String) :
    AnyNotification → Except PyError PyDict
  | .regular n =>
    ebind (if n.attachments.isEmpty then .ok []
           else serializeAttachments now gen 0 n.attachments) fun atts =>
    .ok [("id", n.id),
         ("user_id", n.user_id),
         ("notification_type", n.notification_type),
         ("title", n.title),
         ("body_template", n.body_template),
         ("context_name", n.context_name),
         ("context_kwargs", .pdict n.context_kwargs),
         ("subject_template", n.subject_template),
         ("preheader_template", n.preheader_template),
         ("status", n.status),
         ("context_used", n.context_used),
         ("send_after", serializeSendAfter n.send_after),
         ("_attachments", .plist atts),
         ("_notification_type", .pstr "regular"),
         ("adapter_extra_parameters", .pnone)]
  | .oneOff n =>
    ebind (if n.attachments.isEmpty then .ok []
           else serializeAttachments now gen 0 n.attachments) fun atts =>
    .ok [("id", n.id),
         ("email_or_phone", n.email_or_phone),
         ("first_name", n.first_name),
         ("last_name", n.last_name),
         ("notification_type", n.notification_type),
         ("title", n.title),
         ("body_template", n.body_template),
         ("context_name", n.context_name),
         ("context_kwargs", .pdict n.context_kwargs),
         ("subject_template", n.subject_template),
         ("preheader_template", n.preheader_template),
         ("status", n.status),
         ("adapter_extra_parameters", n.adapter_extra_parameters),
         ("context_used", n.context_used),
         ("send_after", serializeSendAfter n.send_after),
         ("_attachments", .plist atts),
         ("_notification_type", .pstr "one_off")]

/-- Embedding of CeleryNotificationAdapter._convert_to_uuid: a uuid.UUID
object when the string parses, else the string unchanged. -/
def _convert_to_uuid (value : String) : PyVal :=
  match uuidParse value with
  | some u => .puuid u
  | none => .pstr value

/-- Conditional conversion applied by notification_from_dict: strings go
through _convert_to_uuid, every other value passes through unchanged. -/
def convertIfStr : PyVal → PyVal
  | .pstr s => _convert_to_uuid s
  | v => v

/-- Dict comprehension over context_kwargs items applying the
string-to-UUID conversion to each value. -/
def convertKwargs (l : PyDict) : PyDict := l.map (fun kv => (kv.1, convertIfStr kv.2))

/-- Embedding of datetime.datetime.fromisoformat applied to a wire
value: ValueError on an unparsable string, TypeError on a non-string. -/
def fromisoformatVal : PyVal → Except PyError Datetime
  | .pstr s =>
    match isoParse s with
    | some dt => .ok dt
    | none => .error (.valueError ("Invalid isoformat string: " ++ s))
  | _ => .error (.typeError "fromisoformat: argument must be str")

/-- Embedding of the send_after decode expression: fromisoformat of the
value when it is truthy, else None. -/
def parseSendAfter (v : PyVal) : Except PyError (Option Datetime) :=
  if truthy v then ebind (fromisoformatVal v) fun dt => .ok (some dt)
  else .ok none

/-- Subscript access requires a dictionary; anything else raises
TypeError as Python subscripting a non-dict does here. -/
def asDictSubscript : PyVal → Except PyError PyDict
  | .pdict es => .ok es
  | _ => .error (.typeError "object is not subscriptable")

/-- The items() call requires a dictionary; anything else raises
AttributeError. -/
def asDictItems : PyVal → Except PyError PyDict
  | .pdict es => .ok es
  | _ => .error (.attributeError "object has no attribute items")

/-- Embedding of CeleryNotificationAdapter._deserialize_attachment: the
record fields are read in the order the StoredAttachment constructor
call lists them (KeyError on the first missing one), created_at is
parsed from ISO form, and the file handle is a
PlaceholderAttachmentFile holding the record identifier; the
identifier itself is taken verbatim with no UUID reinterpretation. -/
def _deserialize_attachment (v : PyVal) : Except PyError StoredAttachment :=
  ebind (asDictSubscript v) fun ad =>
  ebind (getItem ad "id") fun i =>
  ebind (getItem ad "filename") fun fn =>
  ebind (getItem ad "content_type") fun ct =>
  ebind (getItem ad "size") fun sz =>
  ebind (getItem ad "checksum") fun ck =>
  ebind (getItem ad "created_at") fun cav =>
  ebind (fromisoformatVal cav) fun ca =>
  ebind (getItem ad "description") fun desc =>
  ebind (getItem ad "is_inline") fun inl =>
  ebind (getItem ad "storage_metadata") fun sm =>
  .ok { id := i, filename := fn, content_type := ct, size := sz, checksum := ck,
        created_at := ca, description := desc, is_inline := inl,
        storage_metadata := sm, file := .placeholder i }

/-- List comprehension of _deserialize_attachment over the wire
attachment records; each result is a StoredAttachment. -/
def deserializeAttachments : List PyVal → Except PyError (List Attachment)
  | [] => .ok []
  | x :: rest =>
    ebind (_deserialize_attachment x) fun a =>
    ebind (deserializeAttachments rest) fun tl =>
    .ok (.stored a :: tl)

/-- Embedding of the attachments prologue of notification_from_dict:
when dict.get of _attachments is truthy the records are deserialized,
else the attachment list is empty. -/
def parseAttachmentsField (d : PyDict) : Except PyError (List Attachment) :=
  let v := dictGet d "_attachments"
  if truthy v then
    match v with
    | .plist xs => deserializeAttachments xs
    | _ => .error (.typeError "object is not iterable")
  else .ok []

/-- Embedding of the variant test of notification_from_dict:
dict.get of the discriminator equals the string one_off, or the mapping
contains an email_or_phone key. -/
def isOneOffDict (d : PyDict) : Bool :=
  (match d.lookup "_notification_type" with
   | some (.pstr s) => s == "one_off"
   | _ => false) || containsKey d "email_or_phone"

/-- One-off branch of notification_from_dict: required fields are read
in the order the OneOffNotification constructor call lists them, the
identifier and the context_kwargs values get the string-to-UUID
conversion, adapter_extra_parameters falls back to an empty dict via
dict.get, and no context_used argument is passed (the dataclass
default None stands). -/
def buildOneOff (d : PyDict) (send_after : Option Datetime)
    (attachments : List Attachment) : Except PyError AnyNotification :=
  ebind (getItem d "id") fun i =>
  ebind (getItem d "email_or_phone") fun eop =>
  ebind (getItem d "first_name") fun fnm =>
  ebind (getItem d "last_name") fun lnm =>
  ebind (getItem d "notification_type") fun nt =>
  ebind (getItem d "title") fun ti =>
  ebind (getItem d "body_template") fun bt =>
  ebind (getItem d "context_name") fun cn =>
  ebind (getItem d "context_kwargs") fun ckv =>
  ebind (asDictItems ckv) fun ck =>
  ebind (getItem d "subject_template") fun st =>
  ebind (getItem d "preheader_template") fun pht =>
  ebind (getItem d "status") fun stt =>
  .ok (.oneOff { id := convertIfStr i, email_or_phone := eop, first_name := fnm,
                 last_name := lnm, notification_type := nt, title := ti,
                 body_template := bt, context_name := cn,
                 context_kwargs := convertKwargs ck, subject_template := st,
                 preheader_template := pht, status := stt, send_after := send_after,
                 adapter_extra_parameters := dictGetD d "adapter_extra_parameters" (.pdict []),
                 context_used := .pnone, attachments := attachments })

/-- Regular branch of notification_from_dict: required fields are read
in the order the Notification constructor call lists them, the
identifier, user identifier and the context_kwargs values get the
string-to-UUID conversion, and context_used is restored via dict.get
with its None default. -/
def buildRegular (d : PyDict) (send_after : Option Datetime)
    (attachments : List Attachment) : Except PyError AnyNotification :=
  ebind (getItem d "id") fun i =>
  ebind (getItem d "user_id") fun u =>
  ebind (getItem d "context_kwargs") fun ckv =>
  ebind (asDictItems ckv) fun ck =>
  ebind (getItem d "notification_type") fun nt =>
  ebind (getItem d "title") fun ti =>
  ebind (getItem d "body_template") fun bt =>
  ebind (getItem d "context_name") fun cn =>
  ebind (getItem d "subject_template") fun st =>
  ebind (getItem d "preheader_template") fun pht =>
  ebind (getItem d "status") fun stt =>
  .ok (.regular { id := convertIfStr i, user_id := convertIfStr u,
                  notification_type := nt, title := ti, body_template := bt,
                  context_name := cn, context_kwargs := convertKwargs ck,
                  subject_template := st, preheader_template := pht, status := stt,
                  context_used := dictGet d "context_used", send_after := send_after,
                  attachments := attachments })

/-- Embedding of CeleryNotificationAdapter.notification_from_dict:
send_after is read and parsed first, then the attachment records, then
the variant test selects the one-off or the regular constructor
branch. -/
def notification_from_dict (d : PyDict) : Except PyError AnyNotification :=
  ebind (getItem d "send_after") fun sav =>
  ebind (parseSendAfter sav) fun send_after =>
  ebind (parseAttachmentsField d) fun attachments =>
  if isOneOffDict d then buildOneOff d send_after attachments
  else buildRegular d send_after attachments

/-- A unit of work submitted to the queue: the keyword arguments of the
send_notification_task.delay call. -/
structure QueueTask where
  notification : PyDict
  context : PyDict
  backend : String
  adapters : List (String × String)
  backend_kwargs : PyDict
  config : PyDict

/-- The adapter state that CeleryNotificationAdapter.send reads: the
backend locator and construction kwargs, the adapter and renderer
locator strings, and the result of the per-adapter serialize_config
hook. -/
structure CeleryAdapter where
  backend_import_str : String
  backend_kwargs : PyDict
  adapter_import_str : String
  template_renderer_import_str : String
  serialized_config : PyDict

/-- Embedding of CeleryNotificationAdapter.send: the notification is
encoded, then send_notification_task.delay is called exactly once with
the encoded notification, the context mapping untouched, the backend
locator, a one-element adapter/renderer locator list, the backend
kwargs and the serialized configuration.  The result is the list of
units of work submitted to the queue; since Python evaluates the
delay arguments before the call, an encoding exception propagates and
delay is never invoked, so nothing is enqueued on error. -/
def CeleryAdapter.send (A : CeleryAdapter) (now : Datetime) (gen : Nat → String)
    (n : AnyNotification) (context : PyDict) : Except PyError (List QueueTask) :=
  ebind (notification_to_dict now gen n) fun nd =>
  .ok [{ notification := nd, context := context, backend := A.backend_import_str,
         adapters := [(A.adapter_import_str, A.template_renderer_import_str)],
         backend_kwargs := A.backend_kwargs, config := A.serialized_config }]

/-- Property of a field value that the decode-side string-to-UUID
reinterpretation leaves unchanged: it is not a string that parses as a
UUID. -/
def stringUuidFree : PyVal → Prop
  | .pstr s => uuidParse s = none
  | _ => True

/-- The change a queue round trip makes to a stored attachment: the
file handle becomes the placeholder holding the attachment identifier,
everything else is preserved. -/
def stripFile : Attachment → Attachment
  | .stored a => .stored { a with file := .placeholder a.id }
  | att => att

/-- Property of an attachment that a queue round trip preserves up to
stripFile: it is stored, its identifier is a string (so that the str()
call on encode is the identity), and its timestamp is in range. -/
def storedWireSafe (att : Attachment) : Prop :=
  ∃ a s, att = .stored a ∧ a.id = .pstr s ∧ validDT a.created_at

/-- Attachment list of a notification of either variant. -/
def AnyNotification.attachments : AnyNotification → List Attachment
  | .regular n => n.attachments
  | .oneOff n => n.attachments

/-- A fixed encode-time timestamp standing for datetime.datetime.now()
in the concrete examples. -/
def nowW : Datetime := ⟨2024, 5, 1, 12, 0, 0, 0⟩

/-- A fixed uuid.uuid4() stream for the concrete examples. -/
def genW : Nat → String := fun _ => "aaaabbbb-cccc-dddd-eeee-ffff00001111"

/-- A concrete stored attachment with a string identifier. -/
def attW : StoredAttachment :=
  { id := .pstr "att-1", filename := .pstr "f.txt", content_type := .pstr "text/plain",
    size := .pint 12, checksum := .pstr "abc", created_at := ⟨2024, 2, 29, 1, 2, 3, 456789⟩,
    description := .pstr "d", is_inline := .pbool false, storage_metadata := .pdict [],
    file := .backendFile [1, 2] }

/-- A concrete stored attachment whose identifier is a uuid.UUID
object. -/
def attU : StoredAttachment :=
  { attW with id := .puuid "12345678-1234-5678-1234-567812345678" }

/-- A concrete valid regular notification with a stored attachment, a
UUID identifier, an integer user identifier and a send-after
timestamp. -/
def nW : Notification :=
  { id := .puuid "11111111-2222-3333-4444-555555555555",
    user_id := .pint 1,
    notification_type := .pstr "email",
    title := .pstr "Test",
    body_template := .pstr "body.html",
    context_name := .pstr "ctx",
    context_kwargs := [("test", .pstr "test")],
    send_after := some ⟨2024, 6, 1, 8, 30, 0, 0⟩,
    subject_template := .pstr "subj.txt",
    preheader_template := .pstr "pre.html",
    status := .pstr "pending_send",
    context_used := .pnone,
    attachments := [.stored attW] }

/-- A concrete valid regular notification without attachments whose
context_kwargs holds a UUID-shaped string value. -/
def nCex : Notification :=
  { nW with context_kwargs := [("k", .pstr "12345678-1234-5678-1234-567812345678")],
            send_after := none, attachments := [] }

/-- What the codec round trip actually returns for nCex: the
UUID-shaped string value has become a uuid.UUID object. -/
def nCexDecoded : Notification :=
  { nCex with context_kwargs := [("k", .puuid "12345678-1234-5678-1234-567812345678")] }

/-- A concrete valid one-off notification without attachments carrying
a non-None context_used snapshot. -/
def oCex : OneOffNotification :=
  { id := .pstr "opaque-id",
    email_or_phone := .pstr "someone@example.com",
    first_name := .pstr "John",
    last_name := .pstr "Doe",
    notification_type := .pstr "email",
    title := .pstr "T",
    body_template := .pstr "b",
    context_name := .pstr "c",
    context_kwargs := [("test", .pstr "test")],
    send_after := none,
    subject_template := .pstr "s",
    preheader_template := .pstr "p",
    status := .pstr "pending_send",
    adapter_extra_parameters := .pdict [],
    context_used := .pdict [("foo", .pstr "bar")],
    attachments := [] }

/-- What the codec round trip actually returns for oCex: the
context_used snapshot has been dropped to the dataclass default. -/
def oCexDecoded : OneOffNotification := { oCex with context_used := .pnone }

/-- The oCex one-off notification with no context_used snapshot, for
which the round trip is exact. -/
def oW : OneOffNotification := { oCex with context_used := .pnone }

/-- A concrete valid regular notification with no attachments and no
send-after timestamp, small enough to spell out its wire mapping. -/
def nLite : Notification := { nCex with context_kwargs := [("test", .pstr "test")] }

/-- The wire mapping notification_to_dict produces for nLite. -/
def wireLite : PyDict :=
  [("id", .puuid "11111111-2222-3333-4444-555555555555"),
   ("user_id", .pint 1),
   ("notification_type", .pstr "email"),
   ("title", .pstr "Test"),
   ("body_template", .pstr "body.html"),
   ("context_name", .pstr "ctx"),
   ("context_kwargs", .pdict [("test", .pstr "test")]),
   ("subject_template", .pstr "subj.txt"),
   ("preheader_template", .pstr "pre.html"),
   ("status", .pstr "pending_send"),
   ("context_used", .pnone),
   ("send_after", .pnone),
   ("_attachments", .plist []),
   ("_notification_type", .pstr "regular"),
   ("adapter_extra_parameters", .pnone)]

/-- A concrete adapter configuration for the dispatch examples. -/
def adapterW : CeleryAdapter :=
  { backend_import_str := "vintasend.services.notification_backends.stubs.fake_backend.FakeFileBackend",
    backend_kwargs := [("database_file_name", .pstr "notifications.json")],
    adapter_import_str := "example_app.celery.AsyncCeleryFakeEmailAdapter",
    template_renderer_import_str := "fake_templated_email_renderer.FakeTemplateRenderer",
    serialized_config := [] }

/-- A concrete context mapping with nested scalars. -/
def ctxW : PyDict := [("foo", .pstr "bar"), ("nested", .pdict [("a", .pint 1)])]

/-- A concrete pending attachment with in-memory bytes. -/
def pendW : NotificationAttachment :=
  { file := .rawBytes [104, 105], filename := .pstr "t.txt",
    content_type := .pstr "text/plain", description := .pstr "Td",
    is_inline := .pbool false }

/-- A concrete wire mapping carrying the one_off discriminator, a
user_id key, and a context_used snapshot. -/
def dOneOff : PyDict :=
  [("send_after", .pnone),
   ("id", .pstr "x-1"),
   ("user_id", .pint 9),
   ("email_or_phone", .pstr "someone@example.com"),
   ("first_name", .pstr "J"),
   ("last_name", .pstr "D"),
   ("notification_type", .pstr "email"),
   ("title", .pstr "T"),
   ("body_template", .pstr "b"),
   ("context_name", .pstr "c"),
   ("context_kwargs", .pdict []),
   ("subject_template", .pstr "s"),
   ("preheader_template", .pstr "p"),
   ("status", .pstr "pending_send"),
   ("context_used", .pdict [("foo", .pint 1)]),
   ("_notification_type", .pstr "one_off")]

/-- The one-off notification dOneOff decodes to. -/
def oDec : OneOffNotification :=
  { id := .pstr "x-1",
    email_or_phone := .pstr "someone@example.com",
    first_name := .pstr "J",
    last_name := .pstr "D",
    notification_type := .pstr "email",
    title := .pstr "T",
    body_template := .pstr "b",
    context_name := .pstr "c",
    context_kwargs := [],
    send_after := none,
    subject_template := .pstr "s",
    preheader_template := .pstr "p",
    status := .pstr "pending_send",
    adapter_extra_parameters := .pdict [],
    context_used := .pnone,
    attachments := [] }

/-- A concrete wire mapping with no discriminator but an email_or_phone
key. -/
def dOneOffNoDisc : PyDict :=
  (dOneOff.take 15)

/-- A concrete regular wire mapping whose identifier is a UUID-shaped
string, whose user identifier is an integer, and whose context_kwargs
mixes a UUID-shaped string, an ordinary string and an integer. -/
def dRegular : PyDict :=
  [("send_after", .pnone),
   ("id", .pstr "12345678-1234-5678-1234-567812345678"),
   ("user_id", .pint 42),
   ("notification_type", .pstr "email"),
   ("title", .pstr "T"),
   ("body_template", .pstr "b"),
   ("context_name", .pstr "c"),
   ("context_kwargs", .pdict [("u", .pstr "87654321-4321-8765-4321-876543218765"),
                              ("s", .pstr "plain"), ("n", .pint 3)]),
   ("subject_template", .pstr "s"),
   ("preheader_template", .pstr "p"),
   ("status", .pstr "pending_send"),
   ("context_used", .pdict [("x", .pint 1)])]

/-- The regular notification dRegular decodes to. -/
def nDec : Notification :=
  { id := .puuid "12345678-1234-5678-1234-567812345678",
    user_id := .pint 42,
    notification_type := .pstr "email",
    title := .pstr "T",
    body_template := .pstr "b",
    context_name := .pstr "c",
    context_kwargs := [("u", .puuid "87654321-4321-8765-4321-876543218765"),
                       ("s", .pstr "plain"), ("n", .pint 3)],
    send_after := none,
    subject_template := .pstr "s",
    preheader_template := .pstr "p",
    status := .pstr "pending_send",
    context_used := .pdict [("x", .pint 1)],
    attachments := [] }

/-- A concrete wire attachment record whose created_at field is not
ISO-8601. -/
def adBadTs : PyDict :=
  [("id", .pstr "a"), ("filename", .pstr "f"), ("content_type", .pstr "c"),
   ("size", .pint 1), ("checksum", .pnone), ("created_at", .pstr "not-a-date"),
   ("description", .pnone), ("is_inline", .pbool false), ("storage_metadata", .pdict [])]

/-- The wire record _serialize_attachment produces for attW. -/
def attWrec : PyDict :=
  [("id", .pstr "att-1"), ("filename", .pstr "f.txt"), ("content_type", .pstr "text/plain"),
   ("size", .pint 12), ("checksum", .pstr "abc"),
   ("created_at", .pstr "2024-02-29T01:02:03.456789"), ("description", .pstr "d"),
   ("is_inline", .pbool false), ("storage_metadata", .pdict [])]

/-- The stored attachment attWrec decodes to: attW with the placeholder
file handle. -/
def attWdec : StoredAttachment :=
  { attW with file := .placeholder (.pstr "att-1") }

theorem ebind_ok (a : α) (f : α → Except PyError β) : ebind (.ok a) f = f a := rfl

theorem ebind_error (e : PyError) (f : α → Except PyError β) :
    ebind (.error e) f = .error e := rfl

theorem digitChar_isDigit : ∀ a, a < 10 → (digitChar a).isDigit = true := by decide

theorem digitChar_toNat : ∀ a, a < 10 → (digitChar a).toNat = 48 + a := by decide

theorem parse2_digitChar {a b : Nat} (ha : a < 10) (hb : b < 10) :
    parse2 (digitChar a) (digitChar b) = some (10 * a + b) := by
  simp [parse2, digitChar_isDigit a ha, digitChar_isDigit b hb,
        digitChar_toNat a ha, digitChar_toNat b hb]

theorem daysInMonth_le (y m : Nat) : daysInMonth y m ≤ 31 := by
  unfold daysInMonth
  split
  · split <;> norm_num
  · split <;> norm_num

theorem mkDT_valid (d : Datetime) (h : validDT d) :
    mkDT d.year d.month d.day d.hour d.minute d.second d.microsecond = some d := by
  unfold mkDT
  split
  · rfl
  · next hc => exact absurd h hc

/-- Round trip of the datetime codec: fromisoformat of isoformat is the
identity on constructor-valid datetimes. -/
theorem isoParse_isoformat (d : Datetime) (h : validDT d) :
    isoParse (isoformat d) = some d := by
  have hmod : ∀ n : Nat, n % 10 < 10 := fun n => Nat.mod_lt _ (by norm_num)
  have hv := h
  have h31 := daysInMonth_le d.year d.month
  obtain ⟨h1, h2, h3, h4, h5, h6, h7, h8, h9, h10⟩ := h
  show isoParseChars (isoformatChars d) = some d
  by_cases hus : d.microsecond = 0
  · simp only [isoformatChars, hus, if_pos, padNum, List.cons_append, List.nil_append,
      List.append_nil]
    simp only [isoParseChars, parseTimeChars, parse2_digitChar (hmod _) (hmod _),
      and_self, if_true]
    have key := mkDT_valid d hv
    rw [hus] at key
    convert key using 2 <;> omega
  · simp only [isoformatChars, if_neg hus, padNum, List.cons_append, List.nil_append,
      List.append_nil]
    simp only [isoParseChars, parseTimeChars, parse2_digitChar (hmod _) (hmod _),
      and_self, if_true]
    have key := mkDT_valid d hv
    convert key using 2 <;> omega

theorem fromisoformatVal_isoformat (d : Datetime) (h : validDT d) :
    fromisoformatVal (.pstr (isoformat d)) = .ok d := by
  simp [fromisoformatVal, isoParse_isoformat d h]

theorem ebind_eq_ok {x : Except PyError α} {f : α → Except PyError β} {b : β}
    (h : ebind x f = .ok b) : ∃ a, x = .ok a ∧ f a = .ok b := by
  cases x with
  | ok a => exact ⟨a, rfl, h⟩
  | error e => exact absurd h (by simp [ebind])

/-- Encoding then decoding a stored attachment gives it back with the
identifier stringified and the file handle replaced by the
placeholder. -/
theorem roundtrip_stored_any (now : Datetime) (fresh : String) (a : StoredAttachment)
    (hca : validDT a.created_at) :
    ebind (_serialize_attachment now fresh (.stored a))
      (fun r => _deserialize_attachment (.pdict r)) =
    .ok { a with id := .pstr (pyStr a.id), file := .placeholder (.pstr (pyStr a.id)) } := by
  obtain ⟨aid, afn, act, asz, ack, aca, ad, ail, asm, af⟩ := a
  simp only at hca
  simp only [_serialize_attachment, ebind_ok, _deserialize_attachment, asDictSubscript,
    getItem, List.lookup, fromisoformatVal_isoformat aca hca, ebind_ok]
  simp
  simp only [ebind_ok, fromisoformatVal_isoformat aca hca]

/-- Special case of the stored round trip: a string identifier comes
back unchanged, so only the file handle differs. -/
theorem deserialize_serialize_stored (now : Datetime) (fresh : String)
    (a : StoredAttachment) (s : String) (hid : a.id = .pstr s)
    (hca : validDT a.created_at) :
    ebind (_serialize_attachment now fresh (.stored a))
      (fun r => _deserialize_attachment (.pdict r)) =
    .ok { a with file := .placeholder a.id } := by
  obtain ⟨aid, afn, act, asz, ack, aca, ad, ail, asm, af⟩ := a
  simp only at hid hca
  subst hid
  simp only [_serialize_attachment, ebind_ok, _deserialize_attachment, asDictSubscript,
    getItem, List.lookup, pyStr, fromisoformatVal_isoformat aca hca, ebind_ok]
  simp
  simp only [ebind_ok, fromisoformatVal_isoformat aca hca]

/-- Encoding then decoding a pending attachment yields the stored
placeholder record with the synthesized temp_ identifier. -/
theorem roundtrip_pending (now : Datetime) (fresh : String) (a : NotificationAttachment)
    (hnow : validDT now) :
    ebind (_serialize_attachment now fresh (.pending a))
      (fun r => _deserialize_attachment (.pdict r)) =
    .ok { id := .pstr ("temp_" ++ fresh), filename := a.filename,
          content_type := a.content_type, size := .pint (pendingSize a.file),
          checksum := .pnone, created_at := now, description := a.description,
          is_inline := a.is_inline, storage_metadata := .pdict [],
          file := .placeholder (.pstr ("temp_" ++ fresh)) } := by
  simp only [_serialize_attachment, ebind_ok, _deserialize_attachment, asDictSubscript,
    getItem, List.lookup, fromisoformatVal_isoformat now hnow, ebind_ok]
  simp
  simp only [ebind_ok, fromisoformatVal_isoformat now hnow]

theorem roundtrip_attachments (now : Datetime) (gen : Nat → String) (i : Nat)
    (l : List Attachment) (h : ∀ att ∈ l, storedWireSafe att) :
    ∃ xs, serializeAttachments now gen i l = .ok xs ∧ xs.length = l.length ∧
          deserializeAttachments xs = .ok (l.map stripFile) := by
  induction l generalizing i with
  | nil => exact ⟨[], rfl, rfl, rfl⟩
  | cons att rest ih =>
    obtain ⟨a, s, hatt, hid, hca⟩ := h att (by simp)
    obtain ⟨xs, hser, hlen, hdes⟩ := ih (i + 1) (fun x hx => h x (by simp [hx]))
    have hcomp := deserialize_serialize_stored now (gen i) a s hid hca
    obtain ⟨r, hrec, hrecdes⟩ := ebind_eq_ok hcomp
    subst hatt
    refine ⟨.pdict r :: xs, ?_, by simp [hlen], ?_⟩
    · simp [serializeAttachments, hrec, hser, ebind_ok]
    · simp [deserializeAttachments, hrecdes, hdes, ebind_ok, stripFile]

theorem convertIfStr_free {v : PyVal} (h : stringUuidFree v) : convertIfStr v = v := by
  cases v <;> simp_all [stringUuidFree, convertIfStr, _convert_to_uuid]

theorem convertKwargs_free {l : PyDict} (h : ∀ kv ∈ l, stringUuidFree kv.2) :
    convertKwargs l = l := by
  induction l with
  | nil => rfl
  | cons kv rest ih =>
    simp only [convertKwargs, List.map_cons, List.map] at ih ⊢
    rw [convertIfStr_free (h kv (by simp)), ih (fun x hx => h x (by simp [hx]))]

theorem truthy_isoformat (dt : Datetime) : truthy (.pstr (isoformat dt)) = true := rfl

theorem parseSendAfter_serialize (o : Option Datetime)
    (hsa : ∀ dt, o = some dt → validDT dt) :
    parseSendAfter (serializeSendAfter o) = .ok o := by
  cases hsacase : o with
  | none => rfl
  | some dt =>
    simp [parseSendAfter, serializeSendAfter, truthy_isoformat,
      fromisoformatVal_isoformat dt (hsa dt hsacase), ebind_ok]

theorem getItem_bind_ok {d : PyDict} {k : String} {f : PyVal → Except PyError α} {r : α}
    (h : ebind (getItem d k) f = .ok r) : ∃ v, d.lookup k = some v ∧ f v = .ok r := by
  cases hlk : d.lookup k with
  | none =>
    rw [show getItem d k = .error (.keyError k) from by simp [getItem, hlk]] at h
    exact absurd h (by simp [ebind_error])
  | some v =>
    rw [show getItem d k = .ok v from by simp [getItem, hlk]] at h
    exact ⟨v, rfl, by simpa [ebind_ok] using h⟩

theorem asDictItems_bind_ok {v : PyVal} {f : PyDict → Except PyError α} {r : α}
    (h : ebind (asDictItems v) f = .ok r) : ∃ es, v = .pdict es ∧ f es = .ok r := by
  cases v with
  | pdict es => exact ⟨es, rfl, by simpa [asDictItems, ebind_ok] using h⟩
  | pnone => simp [asDictItems, ebind_error] at h
  | pbool b => simp [asDictItems, ebind_error] at h
  | pint n => simp [asDictItems, ebind_error] at h
  | pstr s => simp [asDictItems, ebind_error] at h
  | puuid u => simp [asDictItems, ebind_error] at h
  | plist xs => simp [asDictItems, ebind_error] at h

theorem asDictSubscript_bind_ok {v : PyVal} {f : PyDict → Except PyError α} {r : α}
    (h : ebind (asDictSubscript v) f = .ok r) : ∃ es, v = .pdict es ∧ f es = .ok r := by
  cases v with
  | pdict es => exact ⟨es, rfl, by simpa [asDictSubscript, ebind_ok] using h⟩
  | pnone => simp [asDictSubscript, ebind_error] at h
  | pbool b => simp [asDictSubscript, ebind_error] at h
  | pint n => simp [asDictSubscript, ebind_error] at h
  | pstr s => simp [asDictSubscript, ebind_error] at h
  | puuid u => simp [asDictSubscript, ebind_error] at h
  | plist xs => simp [asDictSubscript, ebind_error] at h

/-- Inversion of _deserialize_attachment: success forces the wire value
to be a record, the decoded identifier is the verbatim record value,
and the file handle is the placeholder on that identifier. -/
theorem deserialize_attachment_inv {v : PyVal} {a : StoredAttachment}
    (h : _deserialize_attachment v = .ok a) :
    ∃ ad, v = .pdict ad ∧ ad.lookup "id" = some a.id ∧ a.file = .placeholder a.id := by
  unfold _deserialize_attachment at h
  obtain ⟨ad, rfl, h⟩ := asDictSubscript_bind_ok h
  obtain ⟨i, hi, h⟩ := getItem_bind_ok h
  obtain ⟨fn, hfn, h⟩ := getItem_bind_ok h
  obtain ⟨ct, hct, h⟩ := getItem_bind_ok h
  obtain ⟨sz, hsz, h⟩ := getItem_bind_ok h
  obtain ⟨ck, hck, h⟩ := getItem_bind_ok h
  obtain ⟨cav, hcav, h⟩ := getItem_bind_ok h
  obtain ⟨ca, hca, h⟩ := ebind_eq_ok h
  obtain ⟨desc, hdesc, h⟩ := getItem_bind_ok h
  obtain ⟨inl, hinl, h⟩ := getItem_bind_ok h
  obtain ⟨sm, hsm, h⟩ := getItem_bind_ok h
  injection h with h
  subst h
  exact ⟨ad, rfl, hi, rfl⟩

/-- Inversion of the regular decode branch: every decoded field is
determined by the wire mapping, with the string-to-UUID conversion on
the identifier, the user identifier and the context_kwargs values, and
context_used restored via dict.get. -/
theorem buildRegular_inv {d : PyDict} {sa : Option Datetime} {atts : List Attachment}
    {r : AnyNotification} (h : buildRegular d sa atts = .ok r) :
    ∃ i u ck nt ti bt cn st pht stt,
      d.lookup "id" = some i ∧ d.lookup "user_id" = some u ∧
      d.lookup "context_kwargs" = some (.pdict ck) ∧
      r = .regular { id := convertIfStr i, user_id := convertIfStr u,
                     notification_type := nt, title := ti, body_template := bt,
                     context_name := cn, context_kwargs := convertKwargs ck,
                     subject_template := st, preheader_template := pht, status := stt,
                     context_used := dictGet d "context_used", send_after := sa,
                     attachments := atts } := by
  unfold buildRegular at h
  obtain ⟨i, hi, h⟩ := getItem_bind_ok h
  obtain ⟨u, hu, h⟩ := getItem_bind_ok h
  obtain ⟨ckv, hckv, h⟩ := getItem_bind_ok h
  obtain ⟨ck, rfl, h⟩ := asDictItems_bind_ok h
  obtain ⟨nt, hnt, h⟩ := getItem_bind_ok h
  obtain ⟨ti, hti, h⟩ := getItem_bind_ok h
  obtain ⟨bt, hbt, h⟩ := getItem_bind_ok h
  obtain ⟨cn, hcn, h⟩ := getItem_bind_ok h
  obtain ⟨st, hst, h⟩ := getItem_bind_ok h
  obtain ⟨pht, hpht, h⟩ := getItem_bind_ok h
  obtain ⟨stt, hstt, h⟩ := getItem_bind_ok h
  injection h with h
  exact ⟨i, u, ck, nt, ti, bt, cn, st, pht, stt, hi, hu, hckv, h.symm⟩

/-- Inversion of the one-off decode branch: every decoded field is
determined by the wire mapping, with the string-to-UUID conversion on
the identifier and the context_kwargs values, adapter_extra_parameters
restored via dict.get with an empty-dict default, and context_used the
dataclass default None. -/
theorem buildOneOff_inv {d : PyDict} {sa : Option Datetime} {atts : List Attachment}
    {r : AnyNotification} (h : buildOneOff d sa atts = .ok r) :
    ∃ i eop fnm lnm nt ti bt cn ck st pht stt,
      d.lookup "id" = some i ∧ d.lookup "context_kwargs" = some (.pdict ck) ∧
      r = .oneOff { id := convertIfStr i, email_or_phone := eop, first_name := fnm,
                    last_name := lnm, notification_type := nt, title := ti,
                    body_template := bt, context_name := cn,
                    context_kwargs := convertKwargs ck, subject_template := st,
                    preheader_template := pht, status := stt, send_after := sa,
                    adapter_extra_parameters := dictGetD d "adapter_extra_parameters" (.pdict []),
                    context_used := .pnone, attachments := atts } := by
  unfold buildOneOff at h
  obtain ⟨i, hi, h⟩ := getItem_bind_ok h
  obtain ⟨eop, heop, h⟩ := getItem_bind_ok h
  obtain ⟨fnm, hfnm, h⟩ := getItem_bind_ok h
  obtain ⟨lnm, hlnm, h⟩ := getItem_bind_ok h
  obtain ⟨nt, hnt, h⟩ := getItem_bind_ok h
  obtain ⟨ti, hti, h⟩ := getItem_bind_ok h
  obtain ⟨bt, hbt, h⟩ := getItem_bind_ok h
  obtain ⟨cn, hcn, h⟩ := getItem_bind_ok h
  obtain ⟨ckv, hckv, h⟩ := getItem_bind_ok h
  obtain ⟨ck, rfl, h⟩ := asDictItems_bind_ok h
  obtain ⟨st, hst, h⟩ := getItem_bind_ok h
  obtain ⟨pht, hpht, h⟩ := getItem_bind_ok h
  obtain ⟨stt, hstt, h⟩ := getItem_bind_ok h
  injection h with h
  exact ⟨i, eop, fnm, lnm, nt, ti, bt, cn, ck, st, pht, stt, hi, hckv, h.symm⟩

/-- Inversion of notification_from_dict: success passes through the
send_after parse, the attachments parse, and then exactly the branch
the variant test selects. -/
theorem notification_from_dict_inv {d : PyDict} {r : AnyNotification}
    (h : notification_from_dict d = .ok r) :
    ∃ sav sa atts, d.lookup "send_after" = some sav ∧ parseSendAfter sav = .ok sa ∧
      parseAttachmentsField d = .ok atts ∧
      ((isOneOffDict d = true ∧ buildOneOff d sa atts = .ok r) ∨
       (isOneOffDict d = false ∧ buildRegular d sa atts = .ok r)) := by
  unfold notification_from_dict at h
  obtain ⟨sav, hsav, h⟩ := getItem_bind_ok h
  obtain ⟨sa, hsa, h⟩ := ebind_eq_ok h
  obtain ⟨atts, hatts, h⟩ := ebind_eq_ok h
  by_cases hoo : isOneOffDict d
  · rw [if_pos hoo] at h
    exact ⟨sav, sa, atts, hsav, hsa, hatts, .inl ⟨hoo, h⟩⟩
  · rw [if_neg hoo] at h
    exact ⟨sav, sa, atts, hsav, hsa, hatts, .inr ⟨Bool.not_eq_true _ ▸ eq_false_of_ne_true hoo, h⟩⟩

/-- The variant test holds exactly when the discriminator field equals
the string one_off or the mapping contains an email_or_phone key. -/
theorem isOneOffDict_iff {d : PyDict} :
    isOneOffDict d = true ↔
      (d.lookup "_notification_type" = some (.pstr "one_off") ∨
       containsKey d "email_or_phone" = true) := by
  unfold isOneOffDict
  rw [Bool.or_eq_true]
  constructor
  · rintro (h | h)
    · left
      cases hlk : d.lookup "_notification_type" with
      | none => rw [hlk] at h; simp at h
      | some v =>
        cases v <;> rw [hlk] at h <;> simp at h
        case pstr s => rw [show s = "one_off" from by simpa using h]
    · right; exact h
  · rintro (h | h)
    · left; rw [h]; simp
    · right; exact h

theorem serializeAttachments_unsupported (now : Datetime) (gen : Nat → String) :
    ∀ i (l : List Attachment) t, (Attachment.otherType t) ∈ l →
    ∃ t2, serializeAttachments now gen i l =
      .error (.valueError ("Unsupported attachment type: " ++ t2)) := by
  intro i l
  induction l generalizing i with
  | nil => intro t h; cases h
  | cons a rest ih =>
    intro t hmem
    cases a with
    | stored s =>
      have : Attachment.otherType t ∈ rest := by
        rcases List.mem_cons.mp hmem with h | h
        · cases h
        · exact h
      obtain ⟨t2, ht2⟩ := ih (i + 1) t this
      exact ⟨t2, by simp [serializeAttachments, _serialize_attachment, ebind_ok, ht2, ebind_error]⟩
    | pending p =>
      have : Attachment.otherType t ∈ rest := by
        rcases List.mem_cons.mp hmem with h | h
        · cases h
        · exact h
      obtain ⟨t2, ht2⟩ := ih (i + 1) t this
      exact ⟨t2, by simp [serializeAttachments, _serialize_attachment, ebind_ok, ht2, ebind_error]⟩
    | otherType t0 =>
      exact ⟨t0, by simp [serializeAttachments, _serialize_attachment, ebind_error]⟩

/-- Claim C1 as frozen is false on the code: for the valid regular
notification nCex, whose attachments are all stored (there are none)
and whose context_kwargs holds a UUID-shaped string value, decoding
the encoding does not give back nCex field-for-field — the decoder
turns the string into a uuid.UUID object. -/
theorem c1_regular_roundtrip_counterexample :
    ebind (notification_to_dict nowW genW (.regular nCex)) notification_from_dict =
      .ok (.regular nCexDecoded) ∧ nCexDecoded ≠ nCex := by
  constructor
  · rfl
  · intro h
    have h2 := congrArg Notification.context_kwargs h
    simp [nCexDecoded, nCex] at h2

/-- Claim C1 (amended): for every valid regular notification whose
attachments are all stored with string identifiers and in-range
timestamps, whose send_after is in range, and in which no string-typed
value among id, user_id and the context_kwargs values parses as a
UUID, decoding the encoding gives the notification back
field-for-field with only the attachment file handles replaced by the
placeholder. -/
theorem c1_regular_roundtrip (now : Datetime) (gen : Nat → String) (n : Notification)
    (hatts : ∀ att ∈ n.attachments, storedWireSafe att)
    (hid : stringUuidFree n.id) (huid : stringUuidFree n.user_id)
    (hck : ∀ kv ∈ n.context_kwargs, stringUuidFree kv.2)
    (hsa : ∀ dt, n.send_after = some dt → validDT dt) :
    ebind (notification_to_dict now gen (.regular n)) notification_from_dict =
      .ok (.regular { n with attachments := n.attachments.map stripFile }) := by
  obtain ⟨xs, hser, hlen, hdes⟩ := roundtrip_attachments now gen 0 n.attachments hatts
  have hsafter := parseSendAfter_serialize n.send_after hsa
  have hserAll : (if n.attachments.isEmpty then Except.ok ([] : List PyVal)
      else serializeAttachments now gen 0 n.attachments) = .ok xs := by
    by_cases hemp : n.attachments.isEmpty
    · have hnil : n.attachments = [] := by simpa [List.isEmpty_iff] using hemp
      rw [hnil] at hser
      simp only [serializeAttachments] at hser
      injection hser with hxs
      simp [hemp, ← hxs]
    · simp [hemp, hser]
  have hdeser : (if truthy (.plist xs) then deserializeAttachments xs
      else .ok []) = .ok (n.attachments.map stripFile) := by
    cases hxs : xs with
    | nil =>
      have : n.attachments = [] := by
        rw [hxs] at hlen
        exact List.eq_nil_of_length_eq_zero hlen.symm
      simp [truthy, this]
    | cons x t =>
      rw [← hxs]
      simpa [truthy, hxs] using hdes
  simp only [notification_to_dict, hserAll, ebind_ok]
  simp only [notification_from_dict, getItem, List.lookup, dictGet, dictGetD,
    containsKey, isOneOffDict, parseAttachmentsField, buildRegular, asDictItems,
    String.reduceBEq]
  simp only [ebind_ok, hsafter, Option.getD_some, Option.isSome_none, Bool.or_false,
    Bool.false_or, Bool.false_eq_true, if_false, reduceIte]
  simp only [hdeser, ebind_ok, asDictItems]
  simp only [convertIfStr_free hid, convertIfStr_free huid, convertKwargs_free hck]

/-- Witness for C1 at the concrete notification nW: the round trip
keeps every field and downgrades the stored attachment file handle to
the placeholder. -/
theorem c1_regular_roundtrip_witness :
    ebind (notification_to_dict nowW genW (.regular nW)) notification_from_dict =
      .ok (.regular { nW with attachments := nW.attachments.map stripFile }) :=
  c1_regular_roundtrip nowW genW nW
    (by
      intro att hmem
      have h2 : att ∈ [Attachment.stored attW] := hmem
      have h3 := List.mem_singleton.mp h2
      subst h3
      exact ⟨attW, "att-1", rfl, rfl, by decide⟩)
    trivial
    trivial
    (by
      intro kv hmem
      have h2 : kv ∈ [(("test" : String), PyVal.pstr "test")] := hmem
      have h3 := List.mem_singleton.mp h2
      subst h3
      exact (by decide : uuidParse "test" = none))
    (by
      intro dt h
      injection h with h
      subst h
      decide)

/-- Claim C6 as frozen is false on the code: for the valid one-off
notification oCex, which has no pending attachments but carries a
non-None context_used snapshot, decoding the encoding does not give
back oCex field-for-field — the decoder never passes context_used to
the OneOffNotification constructor, so the snapshot is dropped to the
default None. -/
theorem c6_oneoff_roundtrip_counterexample :
    ebind (notification_to_dict nowW genW (.oneOff oCex)) notification_from_dict =
      .ok (.oneOff oCexDecoded) ∧ oCexDecoded ≠ oCex := by
  constructor
  · rfl
  · intro h
    have h2 := congrArg OneOffNotification.context_used h
    simp [oCexDecoded, oCex] at h2

/-- Claim C6 (amended): for every valid one-off notification whose
attachments are all stored with string identifiers and in-range
timestamps, whose send_after is in range, whose context_used is None,
and in which no string-typed value among id and the context_kwargs
values parses as a UUID, decoding the encoding gives the notification
back field-for-field — in particular email_or_phone, first_name and
last_name survive — with only the attachment file handles replaced by
the placeholder. -/
theorem c6_oneoff_roundtrip (now : Datetime) (gen : Nat → String) (n : OneOffNotification)
    (hatts : ∀ att ∈ n.attachments, storedWireSafe att)
    (hid : stringUuidFree n.id)
    (hck : ∀ kv ∈ n.context_kwargs, stringUuidFree kv.2)
    (hsa : ∀ dt, n.send_after = some dt → validDT dt)
    (hcu : n.context_used = .pnone) :
    ebind (notification_to_dict now gen (.oneOff n)) notification_from_dict =
      .ok (.oneOff { n with attachments := n.attachments.map stripFile }) := by
  obtain ⟨xs, hser, hlen, hdes⟩ := roundtrip_attachments now gen 0 n.attachments hatts
  have hsafter := parseSendAfter_serialize n.send_after hsa
  have hserAll : (if n.attachments.isEmpty then Except.ok ([] : List PyVal)
      else serializeAttachments now gen 0 n.attachments) = .ok xs := by
    by_cases hemp : n.attachments.isEmpty
    · have hnil : n.attachments = [] := by simpa [List.isEmpty_iff] using hemp
      rw [hnil] at hser
      simp only [serializeAttachments] at hser
      injection hser with hxs
      simp [hemp, ← hxs]
    · simp [hemp, hser]
  have hdeser : (if truthy (.plist xs) then deserializeAttachments xs
      else .ok []) = .ok (n.attachments.map stripFile) := by
    cases hxs : xs with
    | nil =>
      have : n.attachments = [] := by
        rw [hxs] at hlen
        exact List.eq_nil_of_length_eq_zero hlen.symm
      simp [truthy, this]
    | cons x t =>
      rw [← hxs]
      simpa [truthy, hxs] using hdes
  simp only [notification_to_dict, hserAll, ebind_ok]
  simp only [notification_from_dict, getItem, List.lookup, dictGet, dictGetD,
    containsKey, isOneOffDict, parseAttachmentsField, buildOneOff, asDictItems,
    String.reduceBEq]
  simp only [ebind_ok, hsafter, Option.getD_some, Option.isSome_none, Bool.or_false,
    Bool.false_or, Bool.false_eq_true, if_false, reduceIte]
  simp only [hdeser, ebind_ok, asDictItems]
  simp only [convertIfStr_free hid, convertKwargs_free hck, ← hcu, Bool.true_or, if_true]

/-- Witness for C6 at the concrete one-off notification oW: the round
trip keeps every field, including email_or_phone, first_name and
last_name. -/
theorem c6_oneoff_roundtrip_witness :
    ebind (notification_to_dict nowW genW (.oneOff oW)) notification_from_dict =
      .ok (.oneOff { oW with attachments := oW.attachments.map stripFile }) :=
  c6_oneoff_roundtrip nowW genW oW
    (by intro att hmem; cases hmem)
    (by exact (by decide : uuidParse "opaque-id" = none))
    (by
      intro kv hmem
      have h2 : kv ∈ [(("test" : String), PyVal.pstr "test")] := hmem
      have h3 := List.mem_singleton.mp h2
      subst h3
      exact (by decide : uuidParse "test" = none))
    (by intro dt h; cases h)
    rfl

/-- Claim C2: whenever the notification encodes successfully, send
submits exactly one unit of work, and its payload carries the encoded
notification, the context mapping untouched, the backend locator
string, a one-element list holding the single adapter/renderer locator
pair, the backend construction kwargs and the serialize_config
result. -/
theorem c2_send_single_enqueue (A : CeleryAdapter) (now : Datetime) (gen : Nat → String)
    (n : AnyNotification) (context : PyDict) (nd : PyDict)
    (henc : notification_to_dict now gen n = .ok nd) :
    A.send now gen n context =
      .ok [{ notification := nd, context := context, backend := A.backend_import_str,
             adapters := [(A.adapter_import_str, A.template_renderer_import_str)],
             backend_kwargs := A.backend_kwargs, config := A.serialized_config }] := by
  simp [CeleryAdapter.send, henc, ebind_ok]

/-- Witness for C2 at the concrete adapter adapterW, notification
nLite and context ctxW: exactly one task is enqueued, carrying the
wire mapping wireLite and the context identically. -/
theorem c2_send_single_enqueue_witness :
    adapterW.send nowW genW (.regular nLite) ctxW =
      .ok [{ notification := wireLite, context := ctxW,
             backend := adapterW.backend_import_str,
             adapters := [(adapterW.adapter_import_str, adapterW.template_renderer_import_str)],
             backend_kwargs := adapterW.backend_kwargs,
             config := adapterW.serialized_config }] :=
  c2_send_single_enqueue adapterW nowW genW (.regular nLite) ctxW wireLite rfl

/-- Claim C3: when decode succeeds, the result is a one-off
notification exactly when the discriminator field of the wire mapping
equals the string one_off or the mapping contains an email_or_phone
key; in every other successful case the result is a regular
notification. -/
theorem c3_variant_discriminator (d : PyDict) (r : AnyNotification)
    (h : notification_from_dict d = .ok r) :
    r.isOneOff = true ↔
      (d.lookup "_notification_type" = some (.pstr "one_off") ∨
       containsKey d "email_or_phone" = true) := by
  obtain ⟨sav, sa, atts, hsav, hsa, hatts, hbr⟩ := notification_from_dict_inv h
  rw [← isOneOffDict_iff]
  rcases hbr with ⟨hoo, hb⟩ | ⟨hoo, hb⟩
  · obtain ⟨i, eop, fnm, lnm, nt, ti, bt, cn, ck, st, pht, stt, hi, hck, rfl⟩ :=
      buildOneOff_inv hb
    simp [AnyNotification.isOneOff, hoo]
  · obtain ⟨i, u, ck, nt, ti, bt, cn, st, pht, stt, hi, hu, hck, rfl⟩ :=
      buildRegular_inv hb
    simp [AnyNotification.isOneOff, hoo]

/-- Witness for C3 at the concrete mapping dOneOff, which carries the
one_off discriminator and also a user_id key: the decode succeeds with
a one-off notification and the discriminator condition holds; the
variant of the same mapping without the discriminator but with
email_or_phone intact decodes one-off as well. -/
theorem c3_variant_discriminator_witness :
    ((AnyNotification.oneOff oDec).isOneOff = true ↔
      (dOneOff.lookup "_notification_type" = some (.pstr "one_off") ∨
       containsKey dOneOff "email_or_phone" = true)) ∧
    ((AnyNotification.oneOff oDec).isOneOff = true ↔
      (dOneOffNoDisc.lookup "_notification_type" = some (.pstr "one_off") ∨
       containsKey dOneOffNoDisc "email_or_phone" = true)) :=
  ⟨c3_variant_discriminator dOneOff (.oneOff oDec) rfl,
   c3_variant_discriminator dOneOffNoDisc (.oneOff oDec) rfl⟩

/-- Claim C5: when the attachment list of a notification of either
variant contains an object that is neither a pending nor a stored
attachment, send raises ValueError (the failure the spec names
UnsupportedAttachmentType) synchronously; the error result means the
delay call is never reached, so no unit of work is submitted. -/
theorem c5_unsupported_attachment (A : CeleryAdapter) (now : Datetime)
    (gen : Nat → String) (n : AnyNotification) (context : PyDict) (t : String)
    (hmem : Attachment.otherType t ∈ n.attachments) :
    ∃ t2, A.send now gen n context =
      .error (.valueError ("Unsupported attachment type: " ++ t2)) := by
  cases n with
  | regular n =>
    simp only [AnyNotification.attachments] at hmem
    cases hatt : n.attachments with
    | nil => rw [hatt] at hmem; cases hmem
    | cons a rest =>
      obtain ⟨t2, ht2⟩ :=
        serializeAttachments_unsupported now gen 0 (a :: rest) t (hatt ▸ hmem)
      refine ⟨t2, ?_⟩
      simp [CeleryAdapter.send, notification_to_dict, hatt, ht2, ebind_error, ebind_ok]
  | oneOff n =>
    simp only [AnyNotification.attachments] at hmem
    cases hatt : n.attachments with
    | nil => rw [hatt] at hmem; cases hmem
    | cons a rest =>
      obtain ⟨t2, ht2⟩ :=
        serializeAttachments_unsupported now gen 0 (a :: rest) t (hatt ▸ hmem)
      refine ⟨t2, ?_⟩
      simp [CeleryAdapter.send, notification_to_dict, hatt, ht2, ebind_error, ebind_ok]

/-- Witness for C5: sending nLite with an unsupported attachment
object in its list produces the ValueError and no enqueued task. -/
theorem c5_unsupported_attachment_witness :
    ∃ t2, adapterW.send nowW genW
        (.regular { nLite with attachments := [.otherType "<class NonSerializableAttachment>"] })
        ctxW =
      .error (.valueError ("Unsupported attachment type: " ++ t2)) :=
  c5_unsupported_attachment adapterW nowW genW
    (.regular { nLite with attachments := [.otherType "<class NonSerializableAttachment>"] })
    ctxW "<class NonSerializableAttachment>" (List.mem_singleton.mpr rfl)

theorem string_append_left_cancel {s t1 t2 : String} (h : s ++ t1 = s ++ t2) : t1 = t2 := by
  have h2 := congrArg String.data h
  simp only [String.data_append] at h2
  exact String.ext (List.append_cancel_left h2)

/-- Claim C4: encoding a pending attachment yields a record flagged as
needing processing whose identifier is the synthesized temp_ value,
decoding that record yields a stored attachment whose file handle is
the placeholder failing every read, stream, url and delete call with
NotImplementedError (spec name AttachmentUnavailable), and two encodes
of the same attachment with distinct uuid4 draws get distinct
identifiers. -/
theorem c4_attachment_downgrade (now : Datetime) (f1 f2 : String)
    (a : NotificationAttachment) (hnow : validDT now) (hne : f1 ≠ f2) :
    ∃ rec a2,
      _serialize_attachment now f1 (.pending a) = .ok rec ∧
      rec.lookup "id" = some (.pstr ("temp_" ++ f1)) ∧
      rec.lookup "_is_notification_attachment" = some (.pbool true) ∧
      _deserialize_attachment (.pdict rec) = .ok a2 ∧
      a2.id = .pstr ("temp_" ++ f1) ∧
      a2.file = .placeholder (.pstr ("temp_" ++ f1)) ∧
      a2.file.read = .error (.notImplementedError "File must be retrieved from backend") ∧
      a2.file.stream = .error (.notImplementedError "File must be retrieved from backend") ∧
      a2.file.url = .error (.notImplementedError "File must be retrieved from backend") ∧
      a2.file.delete = .error (.notImplementedError "File must be retrieved from backend") ∧
      ∀ rec2, _serialize_attachment now f2 (.pending a) = .ok rec2 →
        rec2.lookup "id" ≠ rec.lookup "id" := by
  have hd := roundtrip_pending now f1 a hnow
  obtain ⟨rec, hser, hdes⟩ := ebind_eq_ok hd
  have hser2 := hser
  unfold _serialize_attachment at hser2
  injection hser2 with hrec
  subst hrec
  refine ⟨_, _, hser, rfl, rfl, hdes, rfl, rfl, rfl, rfl, rfl, rfl, ?_⟩
  intro rec2 hser3 heq
  unfold _serialize_attachment at hser3
  injection hser3 with hrec2
  subst hrec2
  simp only [List.lookup] at heq
  simp at heq
  exact hne (string_append_left_cancel heq).symm

/-- Claim C7: during decode, the top-level identifier, the user
identifier and every context_kwargs value go through the conditional
string-to-UUID conversion (for both variants where the field exists):
a string that parses as a UUID becomes a uuid.UUID object, any other
string is kept, and non-string values pass through unchanged. -/
theorem c7_uuid_reinterpretation :
    (∀ (d : PyDict) (nn : Notification), notification_from_dict d = .ok (.regular nn) →
      (∀ v, d.lookup "id" = some v → nn.id = convertIfStr v) ∧
      (∀ v, d.lookup "user_id" = some v → nn.user_id = convertIfStr v) ∧
      (∀ ck, d.lookup "context_kwargs" = some (.pdict ck) →
        nn.context_kwargs = convertKwargs ck)) ∧
    (∀ (d : PyDict) (nn : OneOffNotification), notification_from_dict d = .ok (.oneOff nn) →
      (∀ v, d.lookup "id" = some v → nn.id = convertIfStr v) ∧
      (∀ ck, d.lookup "context_kwargs" = some (.pdict ck) →
        nn.context_kwargs = convertKwargs ck)) ∧
    (∀ s u, uuidParse s = some u → convertIfStr (.pstr s) = .puuid u) ∧
    (∀ s, uuidParse s = none → convertIfStr (.pstr s) = .pstr s) ∧
    (∀ v : PyVal, (∀ s, v ≠ .pstr s) → convertIfStr v = v) := by
  refine ⟨?_, ?_, ?_, ?_, ?_⟩
  · intro d nn h
    obtain ⟨sav, sa, atts, hsav, hsa, hatts, hbr⟩ := notification_from_dict_inv h
    rcases hbr with ⟨hoo, hb⟩ | ⟨hoo, hb⟩
    · obtain ⟨i, eop, fnm, lnm, nt, ti, bt, cn, ck, st, pht, stt, hi, hck, heq⟩ :=
        buildOneOff_inv hb
      injection heq
    · obtain ⟨i, u, ck, nt, ti, bt, cn, st, pht, stt, hi, hu, hck, heq⟩ :=
        buildRegular_inv hb
      injection heq with heq
      subst heq
      refine ⟨?_, ?_, ?_⟩
      · intro v hv
        have hiv := hi.symm.trans hv
        injection hiv with hiv
        show convertIfStr i = convertIfStr v
        rw [hiv]
      · intro v hv
        have huv := hu.symm.trans hv
        injection huv with huv
        show convertIfStr u = convertIfStr v
        rw [huv]
      · intro ck2 hck2
        have hcc := hck.symm.trans hck2
        injection hcc with hcc
        injection hcc with hcc
        show convertKwargs ck = convertKwargs ck2
        rw [hcc]
  · intro d nn h
    obtain ⟨sav, sa, atts, hsav, hsa, hatts, hbr⟩ := notification_from_dict_inv h
    rcases hbr with ⟨hoo, hb⟩ | ⟨hoo, hb⟩
    · obtain ⟨i, eop, fnm, lnm, nt, ti, bt, cn, ck, st, pht, stt, hi, hck, heq⟩ :=
        buildOneOff_inv hb
      injection heq with heq
      subst heq
      constructor
      · intro v hv
        have hiv := hi.symm.trans hv
        injection hiv with hiv
        show convertIfStr i = convertIfStr v
        rw [hiv]
      · intro ck2 hck2
        have hcc := hck.symm.trans hck2
        injection hcc with hcc
        injection hcc with hcc
        show convertKwargs ck = convertKwargs ck2
        rw [hcc]
    · obtain ⟨i, u, ck, nt, ti, bt, cn, st, pht, stt, hi, hu, hck, heq⟩ :=
        buildRegular_inv hb
      injection heq
  · intro s u h
    simp [convertIfStr, _convert_to_uuid, h]
  · intro s h
    simp [convertIfStr, _convert_to_uuid, h]
  · intro v h
    cases v with
    | pstr s => exact absurd rfl (h s)
    | pnone => rfl
    | pbool b => rfl
    | pint n => rfl
    | puuid u => rfl
    | plist xs => rfl
    | pdict es => rfl

/-- Witness for C7 at the concrete mapping dRegular: the UUID-shaped
string identifier becomes a uuid.UUID, the integer user identifier
passes through, and the context_kwargs values are converted
value-wise. -/
theorem c7_uuid_reinterpretation_witness :
    nDec.id = convertIfStr (.pstr "12345678-1234-5678-1234-567812345678") ∧
    nDec.user_id = convertIfStr (.pint 42) ∧
    nDec.context_kwargs =
      convertKwargs [("u", .pstr "87654321-4321-8765-4321-876543218765"),
                     ("s", .pstr "plain"), ("n", .pint 3)] ∧
    convertIfStr (.pstr "12345678-1234-5678-1234-567812345678") =
      .puuid "12345678-1234-5678-1234-567812345678" ∧
    convertIfStr (.pstr "plain") = .pstr "plain" ∧
    convertIfStr (.pint 42) = .pint 42 := by
  obtain ⟨p1, p2, p3, p4, p5⟩ := c7_uuid_reinterpretation
  obtain ⟨q1, q2, q3⟩ := p1 dRegular nDec rfl
  exact ⟨q1 _ rfl, q2 _ rfl, q3 _ rfl, p3 _ _ (by decide), p4 _ (by decide),
         p5 _ (fun s h => by cases h)⟩

/-- Claim C8: a wire mapping whose send_after is a truthy string that
is not ISO-8601 makes decode fail with ValueError (the failure the
spec names InvalidTimestamp), and an attachment record whose
created_at string is not ISO-8601 makes the attachment decode fail the
same way. -/
theorem c8_invalid_timestamp :
    (∀ (d : PyDict) (s : String), d.lookup "send_after" = some (.pstr s) → s ≠ "" →
      isoParse s = none →
      notification_from_dict d = .error (.valueError ("Invalid isoformat string: " ++ s))) ∧
    (∀ (ad : PyDict) (i fn ct sz ck : PyVal) (s : String),
      ad.lookup "id" = some i → ad.lookup "filename" = some fn →
      ad.lookup "content_type" = some ct → ad.lookup "size" = some sz →
      ad.lookup "checksum" = some ck → ad.lookup "created_at" = some (.pstr s) →
      isoParse s = none →
      _deserialize_attachment (.pdict ad) =
        .error (.valueError ("Invalid isoformat string: " ++ s))) := by
  constructor
  · intro d s hlk hne hiso
    have htr : truthy (.pstr s) = true := by simp [truthy, hne]
    have hps : parseSendAfter (.pstr s) =
        .error (.valueError ("Invalid isoformat string: " ++ s)) := by
      simp [parseSendAfter, htr, fromisoformatVal, hiso, ebind]
    unfold notification_from_dict
    rw [show getItem d "send_after" = .ok (.pstr s) from by simp [getItem, hlk], ebind_ok,
        hps]
    rfl
  · intro ad i fn ct sz ck s h1 h2 h3 h4 h5 h6 hiso
    have hfv : fromisoformatVal (.pstr s) =
        .error (.valueError ("Invalid isoformat string: " ++ s)) := by
      simp [fromisoformatVal, hiso]
    unfold _deserialize_attachment
    rw [show asDictSubscript (.pdict ad) = .ok ad from rfl, ebind_ok,
        show getItem ad "id" = .ok i from by simp [getItem, h1], ebind_ok,
        show getItem ad "filename" = .ok fn from by simp [getItem, h2], ebind_ok,
        show getItem ad "content_type" = .ok ct from by simp [getItem, h3], ebind_ok,
        show getItem ad "size" = .ok sz from by simp [getItem, h4], ebind_ok,
        show getItem ad "checksum" = .ok ck from by simp [getItem, h5], ebind_ok,
        show getItem ad "created_at" = .ok (.pstr s) from by simp [getItem, h6], ebind_ok,
        hfv]
    rfl

/-- Witness for C8: decoding a mapping carrying the send_after string
not-a-date fails with the ValueError, and so does decoding the
attachment record adBadTs with the same malformed created_at. -/
theorem c8_invalid_timestamp_witness :
    notification_from_dict [("send_after", .pstr "not-a-date"), ("id", .pstr "x")] =
      .error (.valueError ("Invalid isoformat string: " ++ "not-a-date")) ∧
    _deserialize_attachment (.pdict adBadTs) =
      .error (.valueError ("Invalid isoformat string: " ++ "not-a-date")) :=
  ⟨c8_invalid_timestamp.1 _ "not-a-date" rfl (by decide) (by decide),
   c8_invalid_timestamp.2 adBadTs _ _ _ _ _ "not-a-date" rfl rfl rfl rfl rfl rfl (by decide)⟩

/-- Claim C9: decode never applies the UUID reinterpretation to
attachment records — the decoded identifier is the verbatim wire value
— while encode stringifies a stored attachment identifier via str();
hence a stored attachment whose identifier was a uuid.UUID object
comes back from a round trip with a string identifier. -/
theorem c9_attachment_id_verbatim :
    (∀ (v : PyVal) (a : StoredAttachment), _deserialize_attachment v = .ok a →
      ∃ ad, v = .pdict ad ∧ ad.lookup "id" = some a.id ∧ a.file = .placeholder a.id) ∧
    (∀ (now : Datetime) (fresh : String) (a : StoredAttachment),
      ∃ rec, _serialize_attachment now fresh (.stored a) = .ok rec ∧
        rec.lookup "id" = some (.pstr (pyStr a.id))) ∧
    (∀ (now : Datetime) (fresh : String) (a : StoredAttachment) (u : String),
      a.id = .puuid u → validDT a.created_at →
      ∃ a2, ebind (_serialize_attachment now fresh (.stored a))
          (fun r => _deserialize_attachment (.pdict r)) = .ok a2 ∧
        a2.id = .pstr u ∧ a2.id ≠ a.id) := by
  refine ⟨fun v a h => deserialize_attachment_inv h, ?_, ?_⟩
  · intro now fresh a
    exact ⟨_, rfl, rfl⟩
  · intro now fresh a u hid hca
    have h := roundtrip_stored_any now fresh a hca
    rw [hid] at h
    simp only [pyStr] at h
    exact ⟨_, h, rfl, by rw [hid]; simp⟩

/-- Witness for C9: decoding the concrete record attWrec returns its
identifier verbatim; encoding attW emits the stringified identifier;
and the round trip of attU, whose identifier is a uuid.UUID, comes
back with the string form of that UUID, no longer equal to the
original. -/
theorem c9_attachment_id_verbatim_witness :
    (∃ ad, PyVal.pdict attWrec = .pdict ad ∧ ad.lookup "id" = some attWdec.id ∧
      attWdec.file = .placeholder attWdec.id) ∧
    (∃ rec, _serialize_attachment nowW "f" (.stored attW) = .ok rec ∧
      rec.lookup "id" = some (.pstr (pyStr attW.id))) ∧
    (∃ a2, ebind (_serialize_attachment nowW "f" (.stored attU))
        (fun r => _deserialize_attachment (.pdict r)) = .ok a2 ∧
      a2.id = .pstr "12345678-1234-5678-1234-567812345678" ∧ a2.id ≠ attU.id) :=
  ⟨c9_attachment_id_verbatim.1 (.pdict attWrec) attWdec rfl,
   c9_attachment_id_verbatim.2.1 nowW "f" attW,
   c9_attachment_id_verbatim.2.2 nowW "f" attU "12345678-1234-5678-1234-567812345678"
     rfl (by decide)⟩

/-- Claim C10: a wire mapping decoded as one-off never restores
context_used — the decoded value is the dataclass default None even
when the payload carries a context_used key — while a mapping decoded
as regular restores context_used from the mapping via dict.get. -/
theorem c10_context_used_variants :
    (∀ (d : PyDict) (nn : OneOffNotification), notification_from_dict d = .ok (.oneOff nn) →
      nn.context_used = .pnone) ∧
    (∀ (d : PyDict) (nn : Notification), notification_from_dict d = .ok (.regular nn) →
      nn.context_used = dictGet d "context_used") := by
  constructor
  · intro d nn h
    obtain ⟨sav, sa, atts, hsav, hsa, hatts, hbr⟩ := notification_from_dict_inv h
    rcases hbr with ⟨hoo, hb⟩ | ⟨hoo, hb⟩
    · obtain ⟨i, eop, fnm, lnm, nt, ti, bt, cn, ck, st, pht, stt, hi, hck, heq⟩ :=
        buildOneOff_inv hb
      injection heq with heq
      subst heq
      rfl
    · obtain ⟨i, u, ck, nt, ti, bt, cn, st, pht, stt, hi, hu, hck, heq⟩ :=
        buildRegular_inv hb
      injection heq
  · intro d nn h
    obtain ⟨sav, sa, atts, hsav, hsa, hatts, hbr⟩ := notification_from_dict_inv h
    rcases hbr with ⟨hoo, hb⟩ | ⟨hoo, hb⟩
    · obtain ⟨i, eop, fnm, lnm, nt, ti, bt, cn, ck, st, pht, stt, hi, hck, heq⟩ :=
        buildOneOff_inv hb
      injection heq
    · obtain ⟨i, u, ck, nt, ti, bt, cn, st, pht, stt, hi, hu, hck, heq⟩ :=
        buildRegular_inv hb
      injection heq with heq
      subst heq
      rfl

/-- Witness for C10: dOneOff carries a non-None context_used and the
one_off discriminator, and its decode has context_used None; dRegular
carries a context_used snapshot and its decode restores exactly the
dict.get of that key. -/
theorem c10_context_used_variants_witness :
    oDec.context_used = .pnone ∧
    nDec.context_used = dictGet dRegular "context_used" :=
  ⟨c10_context_used_variants.1 dOneOff oDec rfl,
   c10_context_used_variants.2 dRegular nDec rfl⟩

/-- Witness for C4 at the concrete pending attachment pendW with two
distinct uuid4 draws. -/
theorem c4_attachment_downgrade_witness :
    ∃ rec a2,
      _serialize_attachment nowW "11111111-1111-1111-1111-111111111111"
        (.pending pendW) = .ok rec ∧
      rec.lookup "id" =
        some (.pstr ("temp_" ++ "11111111-1111-1111-1111-111111111111")) ∧
      rec.lookup "_is_notification_attachment" = some (.pbool true) ∧
      _deserialize_attachment (.pdict rec) = .ok a2 ∧
      a2.id = .pstr ("temp_" ++ "11111111-1111-1111-1111-111111111111") ∧
      a2.file = .placeholder (.pstr ("temp_" ++ "11111111-1111-1111-1111-111111111111")) ∧
      a2.file.read = .error (.notImplementedError "File must be retrieved from backend") ∧
      a2.file.stream = .error (.notImplementedError "File must be retrieved from backend") ∧
      a2.file.url = .error (.notImplementedError "File must be retrieved from backend") ∧
      a2.file.delete = .error (.notImplementedError "File must be retrieved from backend") ∧
      ∀ rec2, _serialize_attachment nowW "22222222-2222-2222-2222-222222222222"
          (.pending pendW) = .ok rec2 →
        rec2.lookup "id" ≠ rec.lookup "id" :=
  c4_attachment_downgrade nowW "11111111-1111-1111-1111-111111111111"
    "22222222-2222-2222-2222-222222222222" pendW (by decide) (by decide)
